import Mathlib

/-!
Shallow embedding of the environment-lighting pipeline of the
`3d-web-experience` client, translated from
`src/packages/3d-web-client-core/src/rendering/composer.ts`,
`src/packages/3d-web-client-core/src/rendering/atmospheric-sky/SkyEnvironmentGenerator.js`,
`src/packages/3d-web-client-core/src/tweakpane/blades/environmentFolder.ts`
and the `Sky` mesh module.

JavaScript `number` values are modelled as exact rationals (`ℚ`) where the
source only performs field arithmetic and comparisons, and as reals (`ℝ`)
where the source calls trigonometric functions (`Math.cos`, `Math.sin`).
JavaScript `Promise` objects are identified by the order in which they are
created (a fresh natural-number id per load call), which faithfully models
the reference-identity comparison `this.skyboxState.latestPromise !== p`
because every load call creates a brand-new promise object.
-/

namespace ThreeDWeb

/-- An r/g/b colour triple, as used by `fogColor`, `ambientLightColor`. -/
structure Color where
  r : ℚ
  g : ℚ
  b : ℚ
deriving DecidableEq, Repr

/-! ## The `envValues` / `sunValues` mutable records
(`tweakpane/blades/environmentFolder.ts`). -/

/-- `envValues` from `environmentFolder.ts` (flattened: the
`atmosphericSky`, `ambientLight` and `fog` sub-objects are inlined). -/
structure EnvValues where
  skyboxAzimuthalAngle : ℚ
  skyboxPolarAngle : ℚ
  envMapIntensity : ℚ
  skyboxIntensity : ℚ
  skyboxBlurriness : ℚ
  turbidity : ℚ
  rayleigh : ℚ
  mieCoefficient : ℚ
  mieDirectionalG : ℚ
  ambientLightIntensity : ℚ
  ambientLightColor : Color
  fogNear : ℚ
  fogFar : ℚ
  fogColor : Color
deriving DecidableEq, Repr

/-- `sunValues` from `environmentFolder.ts`. -/
structure SunValues where
  sunAzimuthalAngle : ℚ
  sunPolarAngle : ℚ
  sunIntensity : ℚ
  sunColor : Color
deriving DecidableEq, Repr

/-! ## The `EnvironmentConfiguration` input value (composer.ts lines 67-119).
Every optional field of the TypeScript type becomes an `Option`. -/

/-- The `atmospheric` sub-object of the skybox descriptor.  The
`sunPosition` Vector3 is kept as a real triple. -/
structure AtmosphericParams where
  turbidity : Option ℚ
  rayleigh : Option ℚ
  mieCoefficient : Option ℚ
  mieDirectionalG : Option ℚ
  sunPosition : Option (ℝ × ℝ × ℝ)

/-- Which variant of the skybox union is present, decided in the source by
the JavaScript `in` operator on the keys `hdrJpgUrl`, `hdrUrl`,
`atmospheric`.  `atmospheric none` is an `atmospheric` key holding
`undefined`; `noVariantKey` is a skybox object carrying none of the three
keys (possible because `atmospheric` is itself optional). -/
inductive SkyboxVariant
  | hdrJpg (url : String)
  | hdr (url : String)
  | atmospheric (params : Option AtmosphericParams)
  | noVariantKey

/-- The `skybox` field of `EnvironmentConfiguration`. -/
structure SkyboxConfig where
  intensity : Option ℚ
  blurriness : Option ℚ
  azimuthalAngle : Option ℚ
  polarAngle : Option ℚ
  variant : SkyboxVariant

/-- The `sun.tracking` sub-configuration. -/
structure SunTrackingConfig where
  enabled : Option Bool
  speed : Option ℚ
  cycleDuration : Option ℚ

/-- The `sun` field of `EnvironmentConfiguration`. -/
structure SunConfig where
  intensity : Option ℚ
  polarAngle : Option ℚ
  azimuthalAngle : Option ℚ
  tracking : Option SunTrackingConfig

/-- The `fog` field of `EnvironmentConfiguration`.  The source applies
`fogColor` only when all three of r, g, b are numbers, so the colour is a
single optional triple. -/
structure FogConfig where
  fogNear : Option ℚ
  fogFar : Option ℚ
  fogColor : Option Color

/-- The `envMap` field. -/
structure EnvMapConfig where
  intensity : Option ℚ

/-- The `postProcessing` field. -/
structure PostProcessingConfig where
  bloomIntensity : Option ℚ

/-- The `ambientLight` field. -/
structure AmbientLightConfig where
  intensity : Option ℚ

/-- `EnvironmentConfiguration` (composer.ts lines 67-119). -/
structure EnvironmentConfig where
  groundPlane : Option Bool
  skybox : Option SkyboxConfig
  envMap : Option EnvMapConfig
  sun : Option SunConfig
  fog : Option FogConfig
  postProcessing : Option PostProcessingConfig
  ambientLight : Option AmbientLightConfig

/-! ## Scene state observed by the claims. -/

/-- What `scene.environment` currently holds: the initial `null`, an HDR
environment map produced by load call `loadId`, or the cube render target
texture generated from the atmospheric sky. -/
inductive SceneEnvSource
  | nullEnv
  | hdrMap (loadId : ℕ)
  | atmosphericMap
deriving DecidableEq, Repr

/-- The slice of the three.js `Scene` the composer mutates.  Rotations are
recorded as the (polarDeg, azimuthalDeg) pair handed to
`new Euler(MathUtils.degToRad(polar), MathUtils.degToRad(azimuthal), 0)`;
the degree-to-radian conversion is a fixed injective map, so the pair
carries the full information. -/
structure SceneState where
  environment : SceneEnvSource
  environmentIntensity : ℚ
  environmentRotation : ℚ × ℚ
  background : Option ℕ
  backgroundIntensity : ℚ
  backgroundBlurriness : ℚ
  backgroundRotation : ℚ × ℚ
  fog : Option (Color × ℚ × ℚ)
  ambientLight : Option (Color × ℚ)
deriving DecidableEq, Repr

/-- The uniforms of the `Sky` shader material touched by the composer.
`sunPosition` is the Vector3 uniform (a real triple, because it is
computed with `Math.sin`/`Math.cos`). -/
structure SkyUniforms where
  turbidity : ℚ
  rayleigh : ℚ
  mieCoefficient : ℚ
  mieDirectionalG : ℚ
  sunPosition : ℝ × ℝ × ℝ

/-- The spherical-to-Cartesian conversion used identically in
`updateAtmosphericSky` and `syncSunWithSky` (composer.ts lines 801-810
and 849-857): angles in degrees are converted to radians and mapped to
`(sin p * cos a, cos p, sin p * sin a)`. -/
noncomputable def sunPositionFromAngles (azimuthalDeg polarDeg : ℚ) : ℝ × ℝ × ℝ :=
  let azimuthalRad : ℝ := (azimuthalDeg : ℝ) * (Real.pi / 180)
  let polarRad : ℝ := (polarDeg : ℝ) * (Real.pi / 180)
  (Real.sin polarRad * Real.cos azimuthalRad,
   Real.cos polarRad,
   Real.sin polarRad * Real.sin azimuthalRad)

/-- The composer's mutable state: the global `envValues`/`sunValues`
records, `extrasValues.bloom`, the bloom effect's applied intensity, the
scene slice, the sky uniforms, the skybox load slot
(`this.skyboxState` plus the promise-id allocator and a log of
`applyEnvMap` calls), and the sun-tracking fields. -/
structure CState where
  envValues : EnvValues
  sunValues : SunValues
  extrasBloom : ℚ
  bloomEffectIntensity : ℚ
  scene : SceneState
  skyUniforms : SkyUniforms
  /-- whether `this.sky` and `this.skyEnvironmentGenerator` are non-null
  (both are created in the constructor and never nulled). -/
  hasSky : Bool
  /-- whether `this.sun` is non-null. -/
  hasSun : Bool
  /-- `this.environmentConfiguration`. -/
  config : Option EnvironmentConfig
  /-- `this.skyboxState.src.hdrJpgUrl`. -/
  srcHdrJpgUrl : Option String
  /-- `this.skyboxState.src.hdrUrl`. -/
  srcHdrUrl : Option String
  /-- `this.skyboxState.latestPromise`, as the id of that promise. -/
  latestPromise : Option ℕ
  /-- allocator for promise ids: the number of load promises created. -/
  nextId : ℕ
  /-- log of the load ids whose env map was applied by `applyEnvMap`. -/
  appliedHistory : List ℕ
  sunTrackingEnabled : Bool
  sunTrackingSpeed : ℚ
  sunCycleDuration : ℚ
  sunStartTime : ℚ

/-! ## Skybox loading (composer.ts lines 540-569, 723-739). -/

/-- `applyEnvMap` (composer.ts lines 723-739): installs the env map of
load `loadId` as both `scene.environment` and `scene.background`, and
re-applies the `envValues` scalars and rotations. -/
def applyEnvMap (loadId : ℕ) (s : CState) : CState :=
  { s with
    scene := { s.scene with
      environment := .hdrMap loadId
      environmentIntensity := s.envValues.envMapIntensity
      environmentRotation := (s.envValues.skyboxPolarAngle, s.envValues.skyboxAzimuthalAngle)
      background := some loadId
      backgroundIntensity := s.envValues.skyboxIntensity
      backgroundBlurriness := s.envValues.skyboxBlurriness
      backgroundRotation := (s.envValues.skyboxPolarAngle, s.envValues.skyboxAzimuthalAngle) }
    appliedHistory := s.appliedHistory ++ [loadId] }

/-- `useHDRJPG(url)` (composer.ts lines 540-554), up to the point where
the decode promise is created: if `skyboxState.src.hdrJpgUrl` is already
`url` the call returns immediately; otherwise a fresh decode promise is
created (allocating a fresh id), `src` is replaced wholesale by
`{ hdrJpgUrl: url }` and `latestPromise` is pointed at the new promise.
The `.then` continuation is modelled separately by `resolveLoad`. -/
def useHDRJPG (url : String) (s : CState) : CState :=
  if s.srcHdrJpgUrl = some url then s
  else
    { s with
      srcHdrJpgUrl := some url
      srcHdrUrl := none
      latestPromise := some s.nextId
      nextId := s.nextId + 1 }

/-- `useHDRI(url)` (composer.ts lines 556-569), same shape as
`useHDRJPG` but keyed on `skyboxState.src.hdrUrl`. -/
def useHDRI (url : String) (s : CState) : CState :=
  if s.srcHdrUrl = some url then s
  else
    { s with
      srcHdrJpgUrl := none
      srcHdrUrl := some url
      latestPromise := some s.nextId
      nextId := s.nextId + 1 }

/-- The `.then` continuation of a decode promise (composer.ts lines
548-553 and 563-568): when the promise with id `pid` resolves, its env
map is applied only if `skyboxState.latestPromise` still is that very
promise; otherwise the result is discarded with no state change. -/
def resolveLoad (pid : ℕ) (s : CState) : CState :=
  if s.latestPromise = some pid then applyEnvMap pid s else s

/-- The two public panorama entry points, as one parametrised operation. -/
inductive PanoramaKind
  | jpg
  | hdr
deriving DecidableEq, Repr

/-- Dispatch to `useHDRJPG` / `useHDRI`. -/
def issuePanorama : PanoramaKind → String → CState → CState
  | .jpg, url, s => useHDRJPG url s
  | .hdr, url, s => useHDRI url s

/-- The guard each entry point checks before starting a decode: whether
the stored source url for its slot already equals `url`. -/
def panoramaSourceMatches : PanoramaKind → String → CState → Prop
  | .jpg, url, s => s.srcHdrJpgUrl = some url
  | .hdr, url, s => s.srcHdrUrl = some url

instance (k : PanoramaKind) (url : String) (s : CState) :
    Decidable (panoramaSourceMatches k url s) := by
  cases k <;> simp [panoramaSourceMatches] <;> infer_instance

/-! ## Scalar update helpers (composer.ts lines 600-628, 662-721). -/

/-- `updateSkyboxRotation` (composer.ts lines 486-497). -/
def updateSkyboxRotation (s : CState) : CState :=
  { s with
    scene := { s.scene with
      backgroundRotation := (s.envValues.skyboxPolarAngle, s.envValues.skyboxAzimuthalAngle)
      environmentRotation := (s.envValues.skyboxPolarAngle, s.envValues.skyboxAzimuthalAngle) } }

/-- `setFog` (composer.ts lines 600-611): `fogFar === 0` removes the fog,
otherwise a new `Fog(color, near, far)` is installed from `envValues`. -/
def setFog (s : CState) : CState :=
  if s.envValues.fogFar = 0 then
    { s with scene := { s.scene with fog := none } }
  else
    { s with
      scene := { s.scene with
        fog := some (s.envValues.fogColor, s.envValues.fogNear, s.envValues.fogFar) } }

/-- `setAmbientLight` (composer.ts lines 613-628): the previous ambient
light is removed and a new one built from `envValues` is added. -/
def setAmbientLight (s : CState) : CState :=
  { s with
    scene := { s.scene with
      ambientLight :=
        some (s.envValues.ambientLightColor, s.envValues.ambientLightIntensity) } }

/-- `enableSunTracking(speed, cycleDuration)` (composer.ts lines
870-879): a no-op without a sun; otherwise stores the configured speed
and cycle duration and resets `sunStartTime` to 0 (to be set on the first
tracking update). -/
def enableSunTracking (speed cycleDuration : ℚ) (s : CState) : CState :=
  if s.hasSun = false then s
  else
    { s with
      sunTrackingEnabled := true
      sunTrackingSpeed := speed
      sunCycleDuration := cycleDuration
      sunStartTime := 0 }

/-- `disableSunTracking` (composer.ts lines 884-886). -/
def disableSunTracking (s : CState) : CState :=
  { s with sunTrackingEnabled := false }

/-- `updateSunValues` (composer.ts lines 630-660): each present numeric
sun field is copied into `sunValues` (and pushed to the `Sun` object,
which is external to this core); then, if a sun exists and a `tracking`
sub-config is present, tracking is disabled on `enabled === false`, and
(re-)enabled when `enabled === true` or a speed or cycle duration is
supplied, defaulting missing knobs to the currently stored ones. -/
def updateSunValues (s : CState) : CState :=
  let cfgSun := s.config.bind (·.sun)
  let s1 :=
    match cfgSun.bind (·.intensity) with
    | some v => { s with sunValues := { s.sunValues with sunIntensity := v } }
    | none => s
  let s2 :=
    match cfgSun.bind (·.azimuthalAngle) with
    | some v => { s1 with sunValues := { s1.sunValues with sunAzimuthalAngle := v } }
    | none => s1
  let s3 :=
    match cfgSun.bind (·.polarAngle) with
    | some v => { s2 with sunValues := { s2.sunValues with sunPolarAngle := v } }
    | none => s2
  match cfgSun.bind (·.tracking) with
  | some tc =>
    if s3.hasSun = true then
      if tc.enabled = some false then disableSunTracking s3
      else if tc.enabled = some true ∨ tc.speed.isSome ∨ tc.cycleDuration.isSome then
        enableSunTracking (tc.speed.getD s3.sunTrackingSpeed)
          (tc.cycleDuration.getD s3.sunCycleDuration) s3
      else s3
    else s3
  | none => s3

/-- `updateFogValues` (composer.ts lines 662-679): present fog fields are
copied into `envValues` (the colour only when all of r, g, b are
numbers), then `setFog` re-derives `scene.fog`. -/
def updateFogValues (s : CState) : CState :=
  let cfgFog := s.config.bind (·.fog)
  let s1 :=
    match cfgFog.bind (·.fogNear) with
    | some v => { s with envValues := { s.envValues with fogNear := v } }
    | none => s
  let s2 :=
    match cfgFog.bind (·.fogFar) with
    | some v => { s1 with envValues := { s1.envValues with fogFar := v } }
    | none => s1
  let s3 :=
    match cfgFog.bind (·.fogColor) with
    | some c => { s2 with envValues := { s2.envValues with fogColor := c } }
    | none => s2
  setFog s3

/-- `updateSkyboxAndEnvValues` (composer.ts lines 681-706): present
`envMap.intensity` and skybox scalars are copied into `envValues`; the
scene's `environmentIntensity`, `backgroundIntensity` and
`backgroundBlurriness` are then (re-)derived from `envValues`
unconditionally, and a present azimuthal/polar angle additionally runs
`updateSkyboxRotation`. -/
def updateSkyboxAndEnvValues (s : CState) : CState :=
  let s1 :=
    match (s.config.bind (·.envMap)).bind (·.intensity) with
    | some v => { s with envValues := { s.envValues with envMapIntensity := v } }
    | none => s
  let s2 := { s1 with scene := { s1.scene with environmentIntensity := s1.envValues.envMapIntensity } }
  let s3 :=
    match (s2.config.bind (·.skybox)).bind (·.intensity) with
    | some v => { s2 with envValues := { s2.envValues with skyboxIntensity := v } }
    | none => s2
  let s4 := { s3 with scene := { s3.scene with backgroundIntensity := s3.envValues.skyboxIntensity } }
  let s5 :=
    match (s4.config.bind (·.skybox)).bind (·.blurriness) with
    | some v => { s4 with envValues := { s4.envValues with skyboxBlurriness := v } }
    | none => s4
  let s6 := { s5 with scene := { s5.scene with backgroundBlurriness := s5.envValues.skyboxBlurriness } }
  let s7 :=
    match (s6.config.bind (·.skybox)).bind (·.azimuthalAngle) with
    | some v =>
      updateSkyboxRotation
        { s6 with envValues := { s6.envValues with skyboxAzimuthalAngle := v } }
    | none => s6
  match (s7.config.bind (·.skybox)).bind (·.polarAngle) with
  | some v =>
    updateSkyboxRotation
      { s7 with envValues := { s7.envValues with skyboxPolarAngle := v } }
  | none => s7

/-- `updateBloomValues` (composer.ts lines 708-713). -/
def updateBloomValues (s : CState) : CState :=
  let s1 :=
    match (s.config.bind (·.postProcessing)).bind (·.bloomIntensity) with
    | some v => { s with extrasBloom := v }
    | none => s
  { s1 with bloomEffectIntensity := s1.extrasBloom }

/-- `updateAmbientLightValues` (composer.ts lines 715-721). -/
def updateAmbientLightValues (s : CState) : CState :=
  let s1 :=
    match (s.config.bind (·.ambientLight)).bind (·.intensity) with
    | some v => { s with envValues := { s.envValues with ambientLightIntensity := v } }
    | none => s
  setAmbientLight s1

/-- `updateAtmosphericSky` (composer.ts lines 760-841): guarded on the
sky and generator existing; sky uniforms are re-seeded from `envValues`,
then overridden (and written back to `envValues`) from the configured
`atmospheric` parameters when the skybox configuration carries the
`atmospheric` variant; if a sun exists its position is written into the
`sunPosition` uniform via the shared spherical-to-Cartesian conversion;
finally the environment map generated from the sky is applied as
`scene.environment` and the background texture is cleared (the sky mesh
itself is the visible background), with the intensity / blurriness /
rotation scalars re-derived from `envValues`. -/
noncomputable def updateAtmosphericSky (s : CState) : CState :=
  if s.hasSky = false then s
  else
    let u0 : SkyUniforms :=
      { s.skyUniforms with
        turbidity := s.envValues.turbidity
        rayleigh := s.envValues.rayleigh
        mieCoefficient := s.envValues.mieCoefficient
        mieDirectionalG := s.envValues.mieDirectionalG }
    let step : SkyUniforms × EnvValues :=
      match s.config.bind (·.skybox) with
      | some sb =>
        match sb.variant with
        | .atmospheric (some ap) =>
          let p1 :=
            match ap.turbidity with
            | some v => ({ u0 with turbidity := v }, { s.envValues with turbidity := v })
            | none => (u0, s.envValues)
          let p2 :=
            match ap.rayleigh with
            | some v => ({ p1.1 with rayleigh := v }, { p1.2 with rayleigh := v })
            | none => p1
          let p3 :=
            match ap.mieCoefficient with
            | some v => ({ p2.1 with mieCoefficient := v }, { p2.2 with mieCoefficient := v })
            | none => p2
          let p4 :=
            match ap.mieDirectionalG with
            | some v => ({ p3.1 with mieDirectionalG := v }, { p3.2 with mieDirectionalG := v })
            | none => p3
          match ap.sunPosition with
          | some vec => ({ p4.1 with sunPosition := vec }, p4.2)
          | none => p4
        | _ => (u0, s.envValues)
      | none => (u0, s.envValues)
    let u2 : SkyUniforms :=
      if s.hasSun then
        { step.1 with
          sunPosition :=
            sunPositionFromAngles s.sunValues.sunAzimuthalAngle s.sunValues.sunPolarAngle }
      else step.1
    { s with
      skyUniforms := u2
      envValues := step.2
      scene := { s.scene with
        environment := .atmosphericMap
        environmentIntensity := step.2.envMapIntensity
        environmentRotation := (step.2.skyboxPolarAngle, step.2.skyboxAzimuthalAngle)
        background := none
        backgroundIntensity := step.2.skyboxIntensity
        backgroundBlurriness := step.2.skyboxBlurriness
        backgroundRotation := (step.2.skyboxPolarAngle, step.2.skyboxAzimuthalAngle) } }

/-- `updateEnvironmentConfiguration` (composer.ts lines 364-385): the
stored configuration is replaced wholesale; the skybox branch dispatches
on the variant keys, falling back to the atmospheric sky when the
`skybox` field is absent (and doing nothing for a skybox object with
none of the three variant keys); then the five scalar update routines
run in source order. -/
noncomputable def updateEnvironmentConfiguration (cfg : EnvironmentConfig) (s : CState) : CState :=
  let s0 := { s with config := some cfg }
  let s1 :=
    match cfg.skybox with
    | some sb =>
      match sb.variant with
      | .hdrJpg url => useHDRJPG url s0
      | .hdr url => useHDRI url s0
      | .atmospheric _ => updateAtmosphericSky s0
      | .noVariantKey => s0
    | none => updateAtmosphericSky s0
  updateFogValues (updateSunValues (updateBloomValues (updateAmbientLightValues
    (updateSkyboxAndEnvValues s1))))

/-! ## `render` (composer.ts lines 468-484).
The body of `render` is modelled as the sequence of actions it performs.
In the source, the `effectComposer.render()` call and the other
pass-graph lines (composer.ts lines 477-483) are commented out: the
active code advances sun tracking when enabled, sets the tone-mapping
exposure and mode, and performs a single direct `renderer.render`. -/

/-- One observable action of `Composer.render`. -/
inductive RenderAction
  | sunTrackingUpdate
  | setToneMappingExposure (v : ℚ)
  | setToneMappingACESFilmic
  | rendererRender
  | effectComposerRender
deriving DecidableEq, Repr

/-- The action trace of `Composer.render(timeManager)`. -/
def renderActions (s : CState) : List RenderAction :=
  (if s.sunTrackingEnabled = true ∧ s.hasSun = true then [.sunTrackingUpdate] else [])
    ++ [.setToneMappingExposure 0.15, .setToneMappingACESFilmic, .rendererRender]

/-! ## Sun tracking formulas (`updateSunTracking`, composer.ts lines
892-959).  The numeric core is a family of pure functions of the current
time; the JavaScript remainder operator `%` is modelled exactly on `ℚ`. -/

/-- Truncation toward zero, the rounding JavaScript's `%` is built on. -/
def rtrunc (x : ℚ) : ℤ :=
  if 0 ≤ x then ⌊x⌋ else ⌈x⌉

/-- The JavaScript remainder `x % y` for finite operands: the result has
the sign of `x` (it is `x - y * trunc(x / y)`). -/
def jsRem (x y : ℚ) : ℚ :=
  x - y * rtrunc (x / y)

/-- The start-time initialisation at the head of `updateSunTracking`
(composer.ts lines 895-898): on the first call after
`enableSunTracking` (which resets `sunStartTime` to 0) the start time
becomes the constant 50, independent of the current time input. -/
def nextStartTime (sunStartTime : ℚ) : ℚ :=
  if sunStartTime = 0 then 50 else sunStartTime

/-- `elapsedTime` (composer.ts line 901): the difference to the start
time is scaled by the hard-coded constant 0.2 — `sunTrackingSpeed` is
not read here. -/
def elapsedTime (startTime currentTime : ℚ) : ℚ :=
  (currentTime - startTime) * 0.2

/-- `cycleProgress` (composer.ts line 904). -/
def cycleProgress (cycleDuration startTime currentTime : ℚ) : ℚ :=
  jsRem (elapsedTime startTime currentTime) cycleDuration / cycleDuration

/-- `azimuthalAngle` before the `% 360` wrap (composer.ts line 908). -/
def trackedAzimuthalAngle (cycleDuration startTime currentTime : ℚ) : ℚ :=
  90 + cycleProgress cycleDuration startTime currentTime * 360

/-- The azimuth stored into `sunValues.sunPosition.sunAzimuthalAngle`
and passed to `sun.setAzimuthalAngle` (composer.ts lines 949, 953):
the computed azimuth wrapped by the JavaScript `% 360`. -/
def storedAzimuthalAngle (cycleDuration startTime currentTime : ℚ) : ℚ :=
  jsRem (trackedAzimuthalAngle cycleDuration startTime currentTime) 360

/-- The polar angle of the tracked sun as a function of cycle progress
(composer.ts lines 912-922):
`polarAngleCenter - cos(progress * 2π) * (polarAngleRange / 2)` with
`minPolarAngle = 50`, `maxPolarAngle = 110`. -/
noncomputable def trackedPolarAngle (progress : ℝ) : ℝ :=
  let minPolarAngle : ℝ := 50
  let maxPolarAngle : ℝ := 110
  let polarAngleRange : ℝ := maxPolarAngle - minPolarAngle
  let polarAngleCenter : ℝ := (minPolarAngle + maxPolarAngle) / 2
  polarAngleCenter - Real.cos (progress * 2 * Real.pi) * (polarAngleRange / 2)

/-- The tracked polar angle as a function of time. -/
noncomputable def trackedPolarAngleAt (cycleDuration startTime currentTime : ℚ) : ℝ :=
  trackedPolarAngle (cycleProgress cycleDuration startTime currentTime : ℝ)

/-- The dynamic sun intensity (composer.ts lines 924-946): full base
intensity at or above `fadeStartAngle = 75` (polar at most 75), zero at
or below `fadeEndAngle = 95` (polar at least 95), cosine-interpolated
in between. -/
noncomputable def computeSunIntensity (baseSunIntensity polarAngle : ℝ) : ℝ :=
  let fadeStartAngle : ℝ := 75
  let fadeEndAngle : ℝ := 95
  if polarAngle ≤ fadeStartAngle then baseSunIntensity
  else if fadeEndAngle ≤ polarAngle then 0
  else
    let fadeProgress := (polarAngle - fadeStartAngle) / (fadeEndAngle - fadeStartAngle)
    let fadeFactor := (Real.cos (fadeProgress * Real.pi) + 1) / 2
    baseSunIntensity * fadeFactor

/-! ## `SkyEnvironmentGenerator.generateEnvironmentMap`
(SkyEnvironmentGenerator.js lines 21-64).  The scene's children are the
data the claims observe; the cube-camera render either succeeds or
throws, and on a throw the exception propagates before the
restore loop runs (there is no try/finally in the source). -/

/-- A child of the scene: `isSky` models the reference comparison
`child !== sky` (true exactly for the sky object passed in). -/
structure SceneChild where
  isSky : Bool
  visible : Bool
deriving DecidableEq, Repr

/-- The capture loop: `originalVisible[index] = child.visible` for every
non-sky child (sky indices are left as holes, i.e. `undefined`). -/
def captureVisibility (children : List SceneChild) : List (Option Bool) :=
  children.map (fun c => if c.isSky then none else some c.visible)

/-- The hiding done in the same loop: every non-sky child is made
invisible. -/
def hideNonSky (children : List SceneChild) : List SceneChild :=
  children.map (fun c => if c.isSky then c else { c with visible := false })

/-- The restore loop: every non-sky child whose captured entry is
defined gets its captured visibility back. -/
def restoreVisibility (children : List SceneChild) (originalVisible : List (Option Bool)) :
    List SceneChild :=
  (children.zip originalVisible).map (fun p =>
    if p.1.isSky then p.1
    else
      match p.2 with
      | some v => { p.1 with visible := v }
      | none => p.1)

/-- `generateEnvironmentMap(sky, scene, cameraPosition, size)` restricted
to its effect on the scene children's `visible` flags.  `renderSucceeds`
says whether `cubeCamera.update(renderer, scene)` returns normally; the
second component of the result is `true` iff the call completed without
an exception (on a throw the function is exited before the restore
loop). -/
def generateEnvironmentMap (children : List SceneChild) (renderSucceeds : Bool) :
    List SceneChild × Bool :=
  let originalVisible := captureVisibility children
  let hidden := hideNonSky children
  if renderSucceeds then (restoreVisibility hidden originalVisible, true)
  else (hidden, false)

/-! ## Concrete states for witnesses and counterexamples. -/

/-- `envValues` with the initial values from `environmentFolder.ts`. -/
def defaultEnvValues : EnvValues :=
  { skyboxAzimuthalAngle := 0
    skyboxPolarAngle := 0
    envMapIntensity := 1
    skyboxIntensity := 1
    skyboxBlurriness := 0
    turbidity := 3.5
    rayleigh := 2.5
    mieCoefficient := 0.008
    mieDirectionalG := 0.85
    ambientLightIntensity := 0
    ambientLightColor := ⟨1, 1, 1⟩
    fogNear := 1000
    fogFar := 1000
    fogColor := ⟨0.7, 0.7, 0.7⟩ }

/-- `sunValues` with the initial values from `environmentFolder.ts`. -/
def defaultSunValues : SunValues :=
  { sunAzimuthalAngle := 219
    sunPolarAngle := -37
    sunIntensity := 7.2
    sunColor := ⟨1, 1, 1⟩ }

/-- A freshly constructed composer (no sun, atmospheric sky present,
no panorama load issued yet). -/
def exampleState : CState :=
  { envValues := defaultEnvValues
    sunValues := defaultSunValues
    extrasBloom := 0.5
    bloomEffectIntensity := 0.5
    scene :=
      { environment := .nullEnv
        environmentIntensity := 1
        environmentRotation := (0, 0)
        background := none
        backgroundIntensity := 1
        backgroundBlurriness := 0
        backgroundRotation := (0, 0)
        fog := none
        ambientLight := none }
    skyUniforms :=
      { turbidity := 3.5
        rayleigh := 2.5
        mieCoefficient := 0.008
        mieDirectionalG := 0.85
        sunPosition := (0, 0, 0) }
    hasSky := true
    hasSun := false
    config := none
    srcHdrJpgUrl := none
    srcHdrUrl := none
    latestPromise := none
    nextId := 0
    appliedHistory := []
    sunTrackingEnabled := false
    sunTrackingSpeed := 0.01
    sunCycleDuration := 30
    sunStartTime := 0 }

/-- The composer after an HDR-JPG panorama load for `"sky.jpg"` has been
issued and has resolved: its environment map is installed. -/
def hdrAppliedState : CState :=
  { exampleState with
    scene := { exampleState.scene with environment := .hdrMap 0, background := some 0 }
    srcHdrJpgUrl := some "sky.jpg"
    latestPromise := some 0
    nextId := 1
    appliedHistory := [0] }

/-- An `EnvironmentConfiguration` with every field omitted. -/
def emptyConfig : EnvironmentConfig :=
  { groundPlane := none
    skybox := none
    envMap := none
    sun := none
    fog := none
    postProcessing := none
    ambientLight := none }

/-! ## C7 — issuing the same url twice while pending starts no second
decode. -/

/-- C7: calling `useHDRJPG` (resp. `useHDRI`) a second time with the same
url is a no-op: the composer state — in particular the stored source url,
the latest promise, and the promise allocator (so no second decode is
started) — is exactly the state after the first call. -/
theorem second_same_url_load_is_noop (url : String) (s : CState) :
    useHDRJPG url (useHDRJPG url s) = useHDRJPG url s ∧
    useHDRI url (useHDRI url s) = useHDRI url s ∧
    (useHDRJPG url (useHDRJPG url s)).nextId = (useHDRJPG url s).nextId ∧
    (useHDRI url (useHDRI url s)).nextId = (useHDRI url s).nextId := by
  have hjpg : useHDRJPG url (useHDRJPG url s) = useHDRJPG url s := by
    by_cases h : s.srcHdrJpgUrl = some url <;> simp [useHDRJPG, h]
  have hhdr : useHDRI url (useHDRI url s) = useHDRI url s := by
    by_cases h : s.srcHdrUrl = some url <;> simp [useHDRI, h]
  exact ⟨hjpg, hhdr, by rw [hjpg], by rw [hhdr]⟩

/-! ## C1 — out-of-order resolution: the stale result is discarded. -/

/-- C1: if a panorama load for `urlA` is issued (passing its guard) and
then a load for a different `urlB` is issued, and `urlB`'s decode promise
resolves before `urlA`'s, then after both resolutions the scene's
environment and background hold `urlB`'s map (promise id
`(issuePanorama kA urlA s0).nextId`), and the only map applied during the
whole exchange is `urlB`'s — `urlA`'s stale result is discarded with no
scene mutation. -/
theorem stale_panorama_resolution_discarded
    (s0 : CState) (kA kB : PanoramaKind) (urlA urlB : String)
    (hguard : ¬ panoramaSourceMatches kA urlA s0)
    (hne : urlA ≠ urlB) :
    (resolveLoad s0.nextId
      (resolveLoad (issuePanorama kA urlA s0).nextId
        (issuePanorama kB urlB (issuePanorama kA urlA s0)))).scene.environment =
      .hdrMap (issuePanorama kA urlA s0).nextId ∧
    (resolveLoad s0.nextId
      (resolveLoad (issuePanorama kA urlA s0).nextId
        (issuePanorama kB urlB (issuePanorama kA urlA s0)))).scene.background =
      some (issuePanorama kA urlA s0).nextId ∧
    (resolveLoad s0.nextId
      (resolveLoad (issuePanorama kA urlA s0).nextId
        (issuePanorama kB urlB (issuePanorama kA urlA s0)))).appliedHistory =
      s0.appliedHistory ++ [(issuePanorama kA urlA s0).nextId] := by
  cases kA <;> cases kB <;>
    simp_all [issuePanorama, useHDRJPG, useHDRI, resolveLoad, applyEnvMap,
      panoramaSourceMatches, Ne.symm hne]

/-- Witness for C1: the general theorem applied to a freshly constructed
composer and the concrete loads `"a.jpg"` then `"b.jpg"`. -/
theorem stale_panorama_resolution_discarded_witness :
    (resolveLoad exampleState.nextId
      (resolveLoad (issuePanorama .jpg "a.jpg" exampleState).nextId
        (issuePanorama .jpg "b.jpg" (issuePanorama .jpg "a.jpg" exampleState)))).scene.environment =
      .hdrMap (issuePanorama .jpg "a.jpg" exampleState).nextId ∧
    (resolveLoad exampleState.nextId
      (resolveLoad (issuePanorama .jpg "a.jpg" exampleState).nextId
        (issuePanorama .jpg "b.jpg" (issuePanorama .jpg "a.jpg" exampleState)))).scene.background =
      some (issuePanorama .jpg "a.jpg" exampleState).nextId ∧
    (resolveLoad exampleState.nextId
      (resolveLoad (issuePanorama .jpg "a.jpg" exampleState).nextId
        (issuePanorama .jpg "b.jpg" (issuePanorama .jpg "a.jpg" exampleState)))).appliedHistory =
      exampleState.appliedHistory ++ [(issuePanorama .jpg "a.jpg" exampleState).nextId] :=
  stale_panorama_resolution_discarded exampleState .jpg .jpg "a.jpg" "b.jpg"
    (by simp [panoramaSourceMatches, exampleState]) (by decide)

/-! ## C2 — partial-update semantics of `updateEnvironmentConfiguration`. -/

/-- Counterexample to C2 as stated: starting from a composer whose active
environment is an applied HDR map, an update whose `skybox` field is
omitted does not leave that map active — the composer falls back to the
atmospheric sky, replacing `scene.environment` and clearing the
background. -/
theorem omitted_skybox_does_not_retain_hdr :
    hdrAppliedState.scene.environment = .hdrMap 0 ∧
    (updateEnvironmentConfiguration emptyConfig hdrAppliedState).scene.environment =
      .atmosphericMap ∧
    (updateEnvironmentConfiguration emptyConfig hdrAppliedState).scene.background = none ∧
    SceneEnvSource.atmosphericMap ≠ .hdrMap 0 := by
  refine ⟨rfl, ?_, ?_, by decide⟩ <;>
    simp [updateEnvironmentConfiguration, updateAtmosphericSky, updateSkyboxAndEnvValues,
      updateAmbientLightValues, updateBloomValues, updateSunValues, updateFogValues,
      setFog, setAmbientLight, hdrAppliedState, exampleState, emptyConfig,
      defaultEnvValues, defaultSunValues]

/-- Characterisation of `updateAtmosphericSky` when the stored
configuration has no skybox descriptor. -/
theorem updateAtmosphericSky_no_skybox_cfg (s : CState)
    (hhassky : s.hasSky = true) (hcfg : s.config.bind (·.skybox) = none) :
    updateAtmosphericSky s =
      { s with
        skyUniforms :=
          if s.hasSun = true then
            { s.skyUniforms with
              turbidity := s.envValues.turbidity
              rayleigh := s.envValues.rayleigh
              mieCoefficient := s.envValues.mieCoefficient
              mieDirectionalG := s.envValues.mieDirectionalG
              sunPosition :=
                sunPositionFromAngles s.sunValues.sunAzimuthalAngle s.sunValues.sunPolarAngle }
          else
            { s.skyUniforms with
              turbidity := s.envValues.turbidity
              rayleigh := s.envValues.rayleigh
              mieCoefficient := s.envValues.mieCoefficient
              mieDirectionalG := s.envValues.mieDirectionalG }
        scene := { s.scene with
          environment := .atmosphericMap
          environmentIntensity := s.envValues.envMapIntensity
          environmentRotation := (s.envValues.skyboxPolarAngle, s.envValues.skyboxAzimuthalAngle)
          background := none
          backgroundIntensity := s.envValues.skyboxIntensity
          backgroundBlurriness := s.envValues.skyboxBlurriness
          backgroundRotation :=
            (s.envValues.skyboxPolarAngle, s.envValues.skyboxAzimuthalAngle) } } := by
  by_cases h : s.hasSun = true <;> simp [updateAtmosphericSky, hhassky, hcfg, h]

/-- Characterisation of `updateSkyboxAndEnvValues` when the stored
configuration carries no env-map intensity and no skybox descriptor. -/
theorem updateSkyboxAndEnvValues_no_cfg (s : CState)
    (henv : (s.config.bind (·.envMap)).bind (·.intensity) = none)
    (hsky : s.config.bind (·.skybox) = none) :
    updateSkyboxAndEnvValues s =
      { s with scene := { s.scene with
          environmentIntensity := s.envValues.envMapIntensity
          backgroundIntensity := s.envValues.skyboxIntensity
          backgroundBlurriness := s.envValues.skyboxBlurriness } } := by
  simp [updateSkyboxAndEnvValues, henv, hsky]

/-- Characterisation of `updateAmbientLightValues` when the stored
configuration carries no ambient-light intensity. -/
theorem updateAmbientLightValues_no_cfg (s : CState)
    (hal : (s.config.bind (·.ambientLight)).bind (·.intensity) = none) :
    updateAmbientLightValues s = setAmbientLight s := by
  simp [updateAmbientLightValues, hal]

/-- Characterisation of `updateBloomValues` when the stored configuration
carries no bloom intensity. -/
theorem updateBloomValues_no_cfg (s : CState)
    (hpp : (s.config.bind (·.postProcessing)).bind (·.bloomIntensity) = none) :
    updateBloomValues s = { s with bloomEffectIntensity := s.extrasBloom } := by
  simp [updateBloomValues, hpp]

/-- Characterisation of `updateSunValues` when the stored configuration
carries no sun descriptor. -/
theorem updateSunValues_no_cfg (s : CState)
    (hsun : s.config.bind (·.sun) = none) :
    updateSunValues s = s := by
  simp [updateSunValues, hsun]

/-- Characterisation of `updateFogValues` when the stored configuration
carries no fog descriptor. -/
theorem updateFogValues_no_cfg (s : CState)
    (hfog : s.config.bind (·.fog) = none) :
    updateFogValues s = setFog s := by
  simp [updateFogValues, hfog]

/-- The skybox branch of `updateEnvironmentConfiguration` (composer.ts
lines 367-378), named so the pipeline can be reasoned about stage by
stage: dispatch on the variant keys of the skybox configuration, falling
back to the atmospheric sky when the `skybox` field is absent, and doing
nothing for a skybox object carrying none of the three variant keys. -/
noncomputable def skyboxDispatch (cfg : EnvironmentConfig) (s : CState) : CState :=
  match cfg.skybox with
  | some sb =>
    match sb.variant with
    | .hdrJpg url => useHDRJPG url s
    | .hdr url => useHDRI url s
    | .atmospheric _ => updateAtmosphericSky s
    | .noVariantKey => s
  | none => updateAtmosphericSky s

/-- `updateEnvironmentConfiguration` is the skybox dispatch followed by
the five scalar update routines in source order. -/
theorem updateEnvironmentConfiguration_eq (cfg : EnvironmentConfig) (s : CState) :
    updateEnvironmentConfiguration cfg s =
      updateFogValues (updateSunValues (updateBloomValues (updateAmbientLightValues
        (updateSkyboxAndEnvValues (skyboxDispatch cfg { s with config := some cfg }))))) :=
  rfl

/-- `useHDRJPG` touches only the skybox load slot: every other component
of the composer state is unchanged. -/
theorem useHDRJPG_frame (url : String) (s : CState) :
    (useHDRJPG url s).envValues = s.envValues ∧
    (useHDRJPG url s).sunValues = s.sunValues ∧
    (useHDRJPG url s).extrasBloom = s.extrasBloom ∧
    (useHDRJPG url s).bloomEffectIntensity = s.bloomEffectIntensity ∧
    (useHDRJPG url s).scene = s.scene ∧
    (useHDRJPG url s).config = s.config ∧
    (useHDRJPG url s).sunTrackingEnabled = s.sunTrackingEnabled ∧
    (useHDRJPG url s).sunTrackingSpeed = s.sunTrackingSpeed ∧
    (useHDRJPG url s).sunCycleDuration = s.sunCycleDuration ∧
    (useHDRJPG url s).sunStartTime = s.sunStartTime := by
  by_cases h : s.srcHdrJpgUrl = some url <;> simp [useHDRJPG, h]

/-- `useHDRI` touches only the skybox load slot. -/
theorem useHDRI_frame (url : String) (s : CState) :
    (useHDRI url s).envValues = s.envValues ∧
    (useHDRI url s).sunValues = s.sunValues ∧
    (useHDRI url s).extrasBloom = s.extrasBloom ∧
    (useHDRI url s).bloomEffectIntensity = s.bloomEffectIntensity ∧
    (useHDRI url s).scene = s.scene ∧
    (useHDRI url s).config = s.config ∧
    (useHDRI url s).sunTrackingEnabled = s.sunTrackingEnabled ∧
    (useHDRI url s).sunTrackingSpeed = s.sunTrackingSpeed ∧
    (useHDRI url s).sunCycleDuration = s.sunCycleDuration ∧
    (useHDRI url s).sunStartTime = s.sunStartTime := by
  by_cases h : s.srcHdrUrl = some url <;> simp [useHDRI, h]

/-- `updateAtmosphericSky` never writes the sun, tracking, bloom or load
state, the fog / ambient / env-map / skybox scalar entries of
`envValues`, nor the scene's fog or ambient light. -/
theorem updateAtmosphericSky_frame (s : CState) :
    (updateAtmosphericSky s).config = s.config ∧
    (updateAtmosphericSky s).sunValues = s.sunValues ∧
    (updateAtmosphericSky s).sunTrackingEnabled = s.sunTrackingEnabled ∧
    (updateAtmosphericSky s).sunTrackingSpeed = s.sunTrackingSpeed ∧
    (updateAtmosphericSky s).sunCycleDuration = s.sunCycleDuration ∧
    (updateAtmosphericSky s).sunStartTime = s.sunStartTime ∧
    (updateAtmosphericSky s).extrasBloom = s.extrasBloom ∧
    (updateAtmosphericSky s).bloomEffectIntensity = s.bloomEffectIntensity ∧
    (updateAtmosphericSky s).srcHdrJpgUrl = s.srcHdrJpgUrl ∧
    (updateAtmosphericSky s).srcHdrUrl = s.srcHdrUrl ∧
    (updateAtmosphericSky s).latestPromise = s.latestPromise ∧
    (updateAtmosphericSky s).envValues.envMapIntensity = s.envValues.envMapIntensity ∧
    (updateAtmosphericSky s).envValues.skyboxIntensity = s.envValues.skyboxIntensity ∧
    (updateAtmosphericSky s).envValues.skyboxBlurriness = s.envValues.skyboxBlurriness ∧
    (updateAtmosphericSky s).envValues.skyboxAzimuthalAngle = s.envValues.skyboxAzimuthalAngle ∧
    (updateAtmosphericSky s).envValues.skyboxPolarAngle = s.envValues.skyboxPolarAngle ∧
    (updateAtmosphericSky s).envValues.fogNear = s.envValues.fogNear ∧
    (updateAtmosphericSky s).envValues.fogFar = s.envValues.fogFar ∧
    (updateAtmosphericSky s).envValues.fogColor = s.envValues.fogColor ∧
    (updateAtmosphericSky s).envValues.ambientLightIntensity =
      s.envValues.ambientLightIntensity ∧
    (updateAtmosphericSky s).envValues.ambientLightColor = s.envValues.ambientLightColor ∧
    (updateAtmosphericSky s).scene.fog = s.scene.fog ∧
    (updateAtmosphericSky s).scene.ambientLight = s.scene.ambientLight := by
  rcases hsb : s.config.bind (·.skybox) with _ | sb
  · simp [updateAtmosphericSky, hsb, apply_ite]
  · rcases hv : sb.variant with url | url | ap0 | _
    · simp [updateAtmosphericSky, hsb, hv, apply_ite]
    · simp [updateAtmosphericSky, hsb, hv, apply_ite]
    · rcases ap0 with _ | ap
      · simp [updateAtmosphericSky, hsb, hv, apply_ite]
      · rcases ht : ap.turbidity with _ | t <;>
        rcases hr : ap.rayleigh with _ | r <;>
        rcases hm : ap.mieCoefficient with _ | m <;>
        rcases hg : ap.mieDirectionalG with _ | g <;>
        rcases hp : ap.sunPosition with _ | v <;>
          simp [updateAtmosphericSky, hsb, hv, ht, hr, hm, hg, hp, apply_ite]
    · simp [updateAtmosphericSky, hsb, hv, apply_ite]

/-- Whatever skybox variant a configuration update selects, the skybox
branch leaves the sun, tracking, bloom, fog, ambient and scalar-intensity
state untouched. -/
theorem skyboxDispatch_frame (cfg : EnvironmentConfig) (s : CState) :
    (skyboxDispatch cfg s).config = s.config ∧
    (skyboxDispatch cfg s).sunValues = s.sunValues ∧
    (skyboxDispatch cfg s).sunTrackingEnabled = s.sunTrackingEnabled ∧
    (skyboxDispatch cfg s).sunTrackingSpeed = s.sunTrackingSpeed ∧
    (skyboxDispatch cfg s).sunCycleDuration = s.sunCycleDuration ∧
    (skyboxDispatch cfg s).sunStartTime = s.sunStartTime ∧
    (skyboxDispatch cfg s).extrasBloom = s.extrasBloom ∧
    (skyboxDispatch cfg s).bloomEffectIntensity = s.bloomEffectIntensity ∧
    (skyboxDispatch cfg s).envValues.envMapIntensity = s.envValues.envMapIntensity ∧
    (skyboxDispatch cfg s).envValues.skyboxIntensity = s.envValues.skyboxIntensity ∧
    (skyboxDispatch cfg s).envValues.skyboxBlurriness = s.envValues.skyboxBlurriness ∧
    (skyboxDispatch cfg s).envValues.skyboxAzimuthalAngle = s.envValues.skyboxAzimuthalAngle ∧
    (skyboxDispatch cfg s).envValues.skyboxPolarAngle = s.envValues.skyboxPolarAngle ∧
    (skyboxDispatch cfg s).envValues.fogNear = s.envValues.fogNear ∧
    (skyboxDispatch cfg s).envValues.fogFar = s.envValues.fogFar ∧
    (skyboxDispatch cfg s).envValues.fogColor = s.envValues.fogColor ∧
    (skyboxDispatch cfg s).envValues.ambientLightIntensity =
      s.envValues.ambientLightIntensity ∧
    (skyboxDispatch cfg s).envValues.ambientLightColor = s.envValues.ambientLightColor ∧
    (skyboxDispatch cfg s).scene.fog = s.scene.fog ∧
    (skyboxDispatch cfg s).scene.ambientLight = s.scene.ambientLight := by
  rcases hsb : cfg.skybox with _ | sb
  · simp [skyboxDispatch, hsb, updateAtmosphericSky_frame]
  · rcases hv : sb.variant with url | url | ap | _
    · simp [skyboxDispatch, hsb, hv, useHDRJPG_frame]
    · simp [skyboxDispatch, hsb, hv, useHDRI_frame]
    · simp [skyboxDispatch, hsb, hv, updateAtmosphericSky_frame]
    · simp [skyboxDispatch, hsb, hv]

/-- `updateSkyboxAndEnvValues` never writes the sun, tracking, bloom or
load state, the fog / ambient / atmospheric entries of `envValues`, nor
the scene's environment, background, fog or ambient light. -/
theorem updateSkyboxAndEnvValues_frame (s : CState) :
    (updateSkyboxAndEnvValues s).config = s.config ∧
    (updateSkyboxAndEnvValues s).sunValues = s.sunValues ∧
    (updateSkyboxAndEnvValues s).sunTrackingEnabled = s.sunTrackingEnabled ∧
    (updateSkyboxAndEnvValues s).sunTrackingSpeed = s.sunTrackingSpeed ∧
    (updateSkyboxAndEnvValues s).sunCycleDuration = s.sunCycleDuration ∧
    (updateSkyboxAndEnvValues s).sunStartTime = s.sunStartTime ∧
    (updateSkyboxAndEnvValues s).extrasBloom = s.extrasBloom ∧
    (updateSkyboxAndEnvValues s).bloomEffectIntensity = s.bloomEffectIntensity ∧
    (updateSkyboxAndEnvValues s).srcHdrJpgUrl = s.srcHdrJpgUrl ∧
    (updateSkyboxAndEnvValues s).srcHdrUrl = s.srcHdrUrl ∧
    (updateSkyboxAndEnvValues s).latestPromise = s.latestPromise ∧
    (updateSkyboxAndEnvValues s).envValues.fogNear = s.envValues.fogNear ∧
    (updateSkyboxAndEnvValues s).envValues.fogFar = s.envValues.fogFar ∧
    (updateSkyboxAndEnvValues s).envValues.fogColor = s.envValues.fogColor ∧
    (updateSkyboxAndEnvValues s).envValues.ambientLightIntensity =
      s.envValues.ambientLightIntensity ∧
    (updateSkyboxAndEnvValues s).envValues.ambientLightColor =
      s.envValues.ambientLightColor ∧
    (updateSkyboxAndEnvValues s).envValues.turbidity = s.envValues.turbidity ∧
    (updateSkyboxAndEnvValues s).envValues.rayleigh = s.envValues.rayleigh ∧
    (updateSkyboxAndEnvValues s).scene.environment = s.scene.environment ∧
    (updateSkyboxAndEnvValues s).scene.background = s.scene.background ∧
    (updateSkyboxAndEnvValues s).scene.fog = s.scene.fog ∧
    (updateSkyboxAndEnvValues s).scene.ambientLight = s.scene.ambientLight := by
  rcases h1 : (s.config.bind (·.envMap)).bind (·.intensity) with _ | v1 <;>
  rcases h2 : (s.config.bind (·.skybox)).bind (·.intensity) with _ | v2 <;>
  rcases h3 : (s.config.bind (·.skybox)).bind (·.blurriness) with _ | v3 <;>
  rcases h4 : (s.config.bind (·.skybox)).bind (·.azimuthalAngle) with _ | v4 <;>
  rcases h5 : (s.config.bind (·.skybox)).bind (·.polarAngle) with _ | v5 <;>
    simp [updateSkyboxAndEnvValues, updateSkyboxRotation, h1, h2, h3, h4, h5]

/-- When the stored configuration carries no env-map intensity,
`updateSkyboxAndEnvValues` keeps `envValues.envMapIntensity` and derives
the scene's environment intensity from that retained value. -/
theorem updateSkyboxAndEnvValues_envMap_omitted (s : CState)
    (h : (s.config.bind (·.envMap)).bind (·.intensity) = none) :
    (updateSkyboxAndEnvValues s).envValues.envMapIntensity = s.envValues.envMapIntensity ∧
    (updateSkyboxAndEnvValues s).scene.environmentIntensity = s.envValues.envMapIntensity := by
  rcases h2 : (s.config.bind (·.skybox)).bind (·.intensity) with _ | v2 <;>
  rcases h3 : (s.config.bind (·.skybox)).bind (·.blurriness) with _ | v3 <;>
  rcases h4 : (s.config.bind (·.skybox)).bind (·.azimuthalAngle) with _ | v4 <;>
  rcases h5 : (s.config.bind (·.skybox)).bind (·.polarAngle) with _ | v5 <;>
    simp [updateSkyboxAndEnvValues, updateSkyboxRotation, h, h2, h3, h4, h5]

/-- When the stored configuration carries no skybox descriptor,
`updateSkyboxAndEnvValues` keeps every skybox scalar of `envValues` and
derives the scene's background intensity and blurriness from those
retained values. -/
theorem updateSkyboxAndEnvValues_skybox_omitted (s : CState)
    (h : s.config.bind (·.skybox) = none) :
    (updateSkyboxAndEnvValues s).envValues.skyboxIntensity = s.envValues.skyboxIntensity ∧
    (updateSkyboxAndEnvValues s).envValues.skyboxBlurriness = s.envValues.skyboxBlurriness ∧
    (updateSkyboxAndEnvValues s).envValues.skyboxAzimuthalAngle =
      s.envValues.skyboxAzimuthalAngle ∧
    (updateSkyboxAndEnvValues s).envValues.skyboxPolarAngle = s.envValues.skyboxPolarAngle ∧
    (updateSkyboxAndEnvValues s).scene.backgroundIntensity = s.envValues.skyboxIntensity ∧
    (updateSkyboxAndEnvValues s).scene.backgroundBlurriness = s.envValues.skyboxBlurriness := by
  rcases h1 : (s.config.bind (·.envMap)).bind (·.intensity) with _ | v1 <;>
    simp [updateSkyboxAndEnvValues, updateSkyboxRotation, h, h1]

/-- `updateAmbientLightValues` writes only
`envValues.ambientLightIntensity` and the scene's ambient light. -/
theorem updateAmbientLightValues_frame (s : CState) :
    (updateAmbientLightValues s).config = s.config ∧
    (updateAmbientLightValues s).sunValues = s.sunValues ∧
    (updateAmbientLightValues s).sunTrackingEnabled = s.sunTrackingEnabled ∧
    (updateAmbientLightValues s).sunTrackingSpeed = s.sunTrackingSpeed ∧
    (updateAmbientLightValues s).sunCycleDuration = s.sunCycleDuration ∧
    (updateAmbientLightValues s).sunStartTime = s.sunStartTime ∧
    (updateAmbientLightValues s).extrasBloom = s.extrasBloom ∧
    (updateAmbientLightValues s).bloomEffectIntensity = s.bloomEffectIntensity ∧
    (updateAmbientLightValues s).srcHdrJpgUrl = s.srcHdrJpgUrl ∧
    (updateAmbientLightValues s).srcHdrUrl = s.srcHdrUrl ∧
    (updateAmbientLightValues s).latestPromise = s.latestPromise ∧
    (updateAmbientLightValues s).envValues.fogNear = s.envValues.fogNear ∧
    (updateAmbientLightValues s).envValues.fogFar = s.envValues.fogFar ∧
    (updateAmbientLightValues s).envValues.fogColor = s.envValues.fogColor ∧
    (updateAmbientLightValues s).envValues.envMapIntensity = s.envValues.envMapIntensity ∧
    (updateAmbientLightValues s).envValues.skyboxIntensity = s.envValues.skyboxIntensity ∧
    (updateAmbientLightValues s).envValues.skyboxBlurriness = s.envValues.skyboxBlurriness ∧
    (updateAmbientLightValues s).envValues.skyboxAzimuthalAngle =
      s.envValues.skyboxAzimuthalAngle ∧
    (updateAmbientLightValues s).envValues.skyboxPolarAngle = s.envValues.skyboxPolarAngle ∧
    (updateAmbientLightValues s).envValues.turbidity = s.envValues.turbidity ∧
    (updateAmbientLightValues s).envValues.rayleigh = s.envValues.rayleigh ∧
    (updateAmbientLightValues s).envValues.ambientLightColor =
      s.envValues.ambientLightColor ∧
    (updateAmbientLightValues s).scene.environment = s.scene.environment ∧
    (updateAmbientLightValues s).scene.background = s.scene.background ∧
    (updateAmbientLightValues s).scene.environmentIntensity = s.scene.environmentIntensity ∧
    (updateAmbientLightValues s).scene.backgroundIntensity = s.scene.backgroundIntensity ∧
    (updateAmbientLightValues s).scene.backgroundBlurriness = s.scene.backgroundBlurriness ∧
    (updateAmbientLightValues s).scene.fog = s.scene.fog := by
  rcases h1 : (s.config.bind (·.ambientLight)).bind (·.intensity) with _ | v1 <;>
    simp [updateAmbientLightValues, setAmbientLight, h1]

/-- `updateBloomValues` writes only the bloom state. -/
theorem updateBloomValues_frame (s : CState) :
    (updateBloomValues s).config = s.config ∧
    (updateBloomValues s).envValues = s.envValues ∧
    (updateBloomValues s).scene = s.scene ∧
    (updateBloomValues s).sunValues = s.sunValues ∧
    (updateBloomValues s).sunTrackingEnabled = s.sunTrackingEnabled ∧
    (updateBloomValues s).sunTrackingSpeed = s.sunTrackingSpeed ∧
    (updateBloomValues s).sunCycleDuration = s.sunCycleDuration ∧
    (updateBloomValues s).sunStartTime = s.sunStartTime ∧
    (updateBloomValues s).srcHdrJpgUrl = s.srcHdrJpgUrl ∧
    (updateBloomValues s).srcHdrUrl = s.srcHdrUrl ∧
    (updateBloomValues s).latestPromise = s.latestPromise := by
  rcases h1 : (s.config.bind (·.postProcessing)).bind (·.bloomIntensity) with _ | v1 <;>
    simp [updateBloomValues, h1]

/-- `updateSunValues` writes only `sunValues` and the tracking state. -/
theorem updateSunValues_frame (s : CState) :
    (updateSunValues s).config = s.config ∧
    (updateSunValues s).envValues = s.envValues ∧
    (updateSunValues s).scene = s.scene ∧
    (updateSunValues s).extrasBloom = s.extrasBloom ∧
    (updateSunValues s).bloomEffectIntensity = s.bloomEffectIntensity ∧
    (updateSunValues s).srcHdrJpgUrl = s.srcHdrJpgUrl ∧
    (updateSunValues s).srcHdrUrl = s.srcHdrUrl ∧
    (updateSunValues s).latestPromise = s.latestPromise := by
  rcases h1 : (s.config.bind (·.sun)).bind (·.intensity) with _ | v1 <;>
  rcases h2 : (s.config.bind (·.sun)).bind (·.azimuthalAngle) with _ | v2 <;>
  rcases h3 : (s.config.bind (·.sun)).bind (·.polarAngle) with _ | v3 <;>
  rcases h4 : (s.config.bind (·.sun)).bind (·.tracking) with _ | tc <;>
    first
      | (simp [updateSunValues, enableSunTracking, disableSunTracking, h1, h2, h3, h4]; done)
      | (by_cases h5 : s.hasSun = true <;>
         by_cases h6 : tc.enabled = some false <;>
         by_cases h7 : tc.enabled = some true ∨ tc.speed.isSome ∨ tc.cycleDuration.isSome <;>
         simp [updateSunValues, enableSunTracking, disableSunTracking,
           h1, h2, h3, h4, h5, h6, h7])

/-- `updateFogValues` writes only the fog entries of `envValues` and the
scene's fog. -/
theorem updateFogValues_frame (s : CState) :
    (updateFogValues s).config = s.config ∧
    (updateFogValues s).sunValues = s.sunValues ∧
    (updateFogValues s).sunTrackingEnabled = s.sunTrackingEnabled ∧
    (updateFogValues s).sunTrackingSpeed = s.sunTrackingSpeed ∧
    (updateFogValues s).sunCycleDuration = s.sunCycleDuration ∧
    (updateFogValues s).sunStartTime = s.sunStartTime ∧
    (updateFogValues s).extrasBloom = s.extrasBloom ∧
    (updateFogValues s).bloomEffectIntensity = s.bloomEffectIntensity ∧
    (updateFogValues s).srcHdrJpgUrl = s.srcHdrJpgUrl ∧
    (updateFogValues s).srcHdrUrl = s.srcHdrUrl ∧
    (updateFogValues s).latestPromise = s.latestPromise ∧
    (updateFogValues s).envValues.envMapIntensity = s.envValues.envMapIntensity ∧
    (updateFogValues s).envValues.skyboxIntensity = s.envValues.skyboxIntensity ∧
    (updateFogValues s).envValues.skyboxBlurriness = s.envValues.skyboxBlurriness ∧
    (updateFogValues s).envValues.skyboxAzimuthalAngle = s.envValues.skyboxAzimuthalAngle ∧
    (updateFogValues s).envValues.skyboxPolarAngle = s.envValues.skyboxPolarAngle ∧
    (updateFogValues s).envValues.turbidity = s.envValues.turbidity ∧
    (updateFogValues s).envValues.rayleigh = s.envValues.rayleigh ∧
    (updateFogValues s).envValues.ambientLightIntensity =
      s.envValues.ambientLightIntensity ∧
    (updateFogValues s).envValues.ambientLightColor = s.envValues.ambientLightColor ∧
    (updateFogValues s).scene.environment = s.scene.environment ∧
    (updateFogValues s).scene.background = s.scene.background ∧
    (updateFogValues s).scene.environmentIntensity = s.scene.environmentIntensity ∧
    (updateFogValues s).scene.backgroundIntensity = s.scene.backgroundIntensity ∧
    (updateFogValues s).scene.backgroundBlurriness = s.scene.backgroundBlurriness ∧
    (updateFogValues s).scene.ambientLight = s.scene.ambientLight := by
  rcases h1 : (s.config.bind (·.fog)).bind (·.fogNear) with _ | v1 <;>
  rcases h2 : (s.config.bind (·.fog)).bind (·.fogFar) with _ | v2 <;>
  rcases h3 : (s.config.bind (·.fog)).bind (·.fogColor) with _ | v3 <;>
    simp [updateFogValues, setFog, h1, h2, h3, apply_ite]

/-- `setFog` keeps `envValues` and derives the scene's fog from the
current `envValues` fog entries. -/
theorem setFog_frame (s : CState) :
    (setFog s).envValues = s.envValues ∧
    (setFog s).scene.fog =
      (if s.envValues.fogFar = 0 then none
       else some (s.envValues.fogColor, s.envValues.fogNear, s.envValues.fogFar)) := by
  by_cases h : s.envValues.fogFar = 0 <;> simp [setFog, h]

/-- C2 (amended): every call to `updateEnvironmentConfiguration` merges
per field: each top-level field omitted from the supplied configuration
— whatever other fields the same update carries — leaves the state
derived from that field unchanged (omitted fog, sun, bloom, ambient
light and env-map intensity retain their previous values, with the scene
scalars re-derived from the retained values), with one exception: an
omitted `skybox` field does not retain a previously applied skybox
source — the composer falls back to the atmospheric sky, installing the
atmospheric environment map and clearing the background texture, though
the skybox scalar values themselves are retained. -/
theorem update_configuration_merge_semantics (s : CState) (cfg : EnvironmentConfig) :
    (cfg.fog = none →
      (updateEnvironmentConfiguration cfg s).envValues.fogNear = s.envValues.fogNear ∧
      (updateEnvironmentConfiguration cfg s).envValues.fogFar = s.envValues.fogFar ∧
      (updateEnvironmentConfiguration cfg s).envValues.fogColor = s.envValues.fogColor ∧
      (updateEnvironmentConfiguration cfg s).scene.fog =
        (if s.envValues.fogFar = 0 then none
         else some (s.envValues.fogColor, s.envValues.fogNear, s.envValues.fogFar))) ∧
    (cfg.sun = none →
      (updateEnvironmentConfiguration cfg s).sunValues = s.sunValues ∧
      (updateEnvironmentConfiguration cfg s).sunTrackingEnabled = s.sunTrackingEnabled ∧
      (updateEnvironmentConfiguration cfg s).sunTrackingSpeed = s.sunTrackingSpeed ∧
      (updateEnvironmentConfiguration cfg s).sunCycleDuration = s.sunCycleDuration ∧
      (updateEnvironmentConfiguration cfg s).sunStartTime = s.sunStartTime) ∧
    (cfg.postProcessing = none →
      (updateEnvironmentConfiguration cfg s).extrasBloom = s.extrasBloom ∧
      (updateEnvironmentConfiguration cfg s).bloomEffectIntensity = s.extrasBloom) ∧
    (cfg.ambientLight = none →
      (updateEnvironmentConfiguration cfg s).envValues.ambientLightIntensity =
        s.envValues.ambientLightIntensity ∧
      (updateEnvironmentConfiguration cfg s).envValues.ambientLightColor =
        s.envValues.ambientLightColor ∧
      (updateEnvironmentConfiguration cfg s).scene.ambientLight =
        some (s.envValues.ambientLightColor, s.envValues.ambientLightIntensity)) ∧
    (cfg.envMap = none →
      (updateEnvironmentConfiguration cfg s).envValues.envMapIntensity =
        s.envValues.envMapIntensity ∧
      (updateEnvironmentConfiguration cfg s).scene.environmentIntensity =
        s.envValues.envMapIntensity) ∧
    (s.hasSky = true → cfg.skybox = none →
      (updateEnvironmentConfiguration cfg s).envValues.skyboxIntensity =
        s.envValues.skyboxIntensity ∧
      (updateEnvironmentConfiguration cfg s).envValues.skyboxBlurriness =
        s.envValues.skyboxBlurriness ∧
      (updateEnvironmentConfiguration cfg s).envValues.skyboxAzimuthalAngle =
        s.envValues.skyboxAzimuthalAngle ∧
      (updateEnvironmentConfiguration cfg s).envValues.skyboxPolarAngle =
        s.envValues.skyboxPolarAngle ∧
      (updateEnvironmentConfiguration cfg s).envValues.turbidity = s.envValues.turbidity ∧
      (updateEnvironmentConfiguration cfg s).envValues.rayleigh = s.envValues.rayleigh ∧
      (updateEnvironmentConfiguration cfg s).srcHdrJpgUrl = s.srcHdrJpgUrl ∧
      (updateEnvironmentConfiguration cfg s).srcHdrUrl = s.srcHdrUrl ∧
      (updateEnvironmentConfiguration cfg s).latestPromise = s.latestPromise ∧
      (updateEnvironmentConfiguration cfg s).scene.environment = .atmosphericMap ∧
      (updateEnvironmentConfiguration cfg s).scene.background = none ∧
      (updateEnvironmentConfiguration cfg s).scene.backgroundIntensity =
        s.envValues.skyboxIntensity ∧
      (updateEnvironmentConfiguration cfg s).scene.backgroundBlurriness =
        s.envValues.skyboxBlurriness) := by
  have hpipe := updateEnvironmentConfiguration_eq cfg s
  refine ⟨?_, ?_, ?_, ?_, ?_, ?_⟩
  · intro hfog
    rw [hpipe, updateFogValues_no_cfg _ (by
      simp [updateSunValues_frame, updateBloomValues_frame, updateAmbientLightValues_frame,
        updateSkyboxAndEnvValues_frame, skyboxDispatch_frame, hfog])]
    simp [setFog_frame, updateSunValues_frame, updateBloomValues_frame,
      updateAmbientLightValues_frame, updateSkyboxAndEnvValues_frame, skyboxDispatch_frame]
  · intro hsun
    rw [hpipe, updateSunValues_no_cfg _ (by
      simp [updateBloomValues_frame, updateAmbientLightValues_frame,
        updateSkyboxAndEnvValues_frame, skyboxDispatch_frame, hsun])]
    simp [updateFogValues_frame, updateBloomValues_frame, updateAmbientLightValues_frame,
      updateSkyboxAndEnvValues_frame, skyboxDispatch_frame]
  · intro hpp
    rw [hpipe, updateBloomValues_no_cfg _ (by
      simp [updateAmbientLightValues_frame, updateSkyboxAndEnvValues_frame,
        skyboxDispatch_frame, hpp])]
    simp [updateFogValues_frame, updateSunValues_frame, updateAmbientLightValues_frame,
      updateSkyboxAndEnvValues_frame, skyboxDispatch_frame]
  · intro hal
    rw [hpipe, updateAmbientLightValues_no_cfg _ (by
      simp [updateSkyboxAndEnvValues_frame, skyboxDispatch_frame, hal])]
    simp [setAmbientLight, updateFogValues_frame, updateSunValues_frame,
      updateBloomValues_frame, updateSkyboxAndEnvValues_frame, skyboxDispatch_frame]
  · intro henv
    rw [hpipe]
    have hx := updateSkyboxAndEnvValues_envMap_omitted
      (skyboxDispatch cfg { s with config := some cfg })
      (by simp [skyboxDispatch_frame, henv])
    simp [updateFogValues_frame, updateSunValues_frame, updateBloomValues_frame,
      updateAmbientLightValues_frame, hx.1, hx.2, skyboxDispatch_frame]
  · intro hhassky hsky
    rw [hpipe]
    have hb : skyboxDispatch cfg { s with config := some cfg } =
        updateAtmosphericSky { s with config := some cfg } := by
      simp [skyboxDispatch, hsky]
    rw [hb, updateAtmosphericSky_no_skybox_cfg _ (by simpa using hhassky) (by simp [hsky])]
    simp [updateFogValues_frame, updateSunValues_frame, updateBloomValues_frame,
      updateAmbientLightValues_frame, updateSkyboxAndEnvValues_frame,
      updateSkyboxAndEnvValues_skybox_omitted, hsky]

/-- Witness for C2 (amended): the per-field merge theorem applied to the
composer with an HDR map active and the configuration that omits every
field, discharging each omitted-field hypothesis. -/
theorem update_configuration_merge_semantics_witness :
    (updateEnvironmentConfiguration emptyConfig hdrAppliedState).envValues.fogNear =
      hdrAppliedState.envValues.fogNear ∧
    (updateEnvironmentConfiguration emptyConfig hdrAppliedState).sunValues =
      hdrAppliedState.sunValues ∧
    (updateEnvironmentConfiguration emptyConfig hdrAppliedState).extrasBloom =
      hdrAppliedState.extrasBloom ∧
    (updateEnvironmentConfiguration emptyConfig hdrAppliedState).envValues.ambientLightIntensity =
      hdrAppliedState.envValues.ambientLightIntensity ∧
    (updateEnvironmentConfiguration emptyConfig hdrAppliedState).envValues.envMapIntensity =
      hdrAppliedState.envValues.envMapIntensity ∧
    (updateEnvironmentConfiguration emptyConfig hdrAppliedState).scene.environment =
      .atmosphericMap ∧
    (updateEnvironmentConfiguration emptyConfig hdrAppliedState).scene.background = none :=
  ⟨((update_configuration_merge_semantics hdrAppliedState emptyConfig).1 rfl).1,
   ((update_configuration_merge_semantics hdrAppliedState emptyConfig).2.1 rfl).1,
   ((update_configuration_merge_semantics hdrAppliedState emptyConfig).2.2.1 rfl).1,
   ((update_configuration_merge_semantics hdrAppliedState emptyConfig).2.2.2.1 rfl).1,
   ((update_configuration_merge_semantics hdrAppliedState emptyConfig).2.2.2.2.1 rfl).1,
   ((update_configuration_merge_semantics hdrAppliedState
      emptyConfig).2.2.2.2.2 rfl rfl).2.2.2.2.2.2.2.2.2.1,
   ((update_configuration_merge_semantics hdrAppliedState
      emptyConfig).2.2.2.2.2 rfl rfl).2.2.2.2.2.2.2.2.2.2.1⟩

/-! ## C3 — what `render` actually executes. -/

/-- A composer with a sun and tracking enabled. -/
def trackingState : CState :=
  { exampleState with hasSun := true, sunTrackingEnabled := true }

/-- Counterexample to C3 as stated: on a concrete composer with tracking
enabled and a sun, the body of `render` advances sun tracking, sets the
tone mapping, and performs a single direct `renderer.render` — the
`effectComposer` pass-graph render never occurs (those lines are
commented out in the source). -/
theorem render_skips_pass_graph :
    renderActions trackingState =
      [.sunTrackingUpdate, .setToneMappingExposure 0.15, .setToneMappingACESFilmic,
        .rendererRender] ∧
    RenderAction.effectComposerRender ∉ renderActions trackingState := by
  constructor
  · rfl
  · decide

/-- C3 (amended): on every `render` call, sun tracking is advanced first
exactly when tracking is enabled and a sun exists; the frame is then
produced by a single direct `renderer.render` (the last action), and the
`EffectComposer` pass chain built in the constructor is never
executed. -/
theorem render_advances_sun_then_direct_render (s : CState) :
    ((renderActions s).head? = some .sunTrackingUpdate ↔
      (s.sunTrackingEnabled = true ∧ s.hasSun = true)) ∧
    (renderActions s).getLast? = some .rendererRender ∧
    RenderAction.rendererRender ∈ renderActions s ∧
    RenderAction.effectComposerRender ∉ renderActions s := by
  by_cases h : s.sunTrackingEnabled = true ∧ s.hasSun = true <;>
    simp [renderActions, h]

/-- Witness for C3 (amended), at a composer with tracking enabled and a
sun. -/
theorem render_advances_sun_then_direct_render_witness :
    (renderActions trackingState).head? = some .sunTrackingUpdate ∧
    RenderAction.effectComposerRender ∉ renderActions trackingState :=
  ⟨(render_advances_sun_then_direct_render trackingState).1.mpr ⟨rfl, rfl⟩,
   (render_advances_sun_then_direct_render trackingState).2.2.2⟩

/-! ## C4 — where in the cycle the tracked sun peaks. -/

/-- C4: evaluation of the tracked polar-angle formula at the cycle
extremes.  At progress 0 and 1 the polar angle is 50° (the minimum polar
angle, i.e. the sun's peak), and at progress 0.5 it is 110° (the maximum
polar angle, below the horizon) — the exact opposite of the claimed
"midday at p = 0.5, midnight at p = 0 and p = 1" behaviour that the
source's own comments describe.  The time input 75 (with cycle duration
10 and the fixed start time 50) realises progress 0.5. -/
theorem tracked_polar_angle_peaks_at_zero :
    cycleProgress 10 50 75 = 1 / 2 ∧
    trackedPolarAngle 0 = 50 ∧
    trackedPolarAngle (1 / 2) = 110 ∧
    trackedPolarAngle 1 = 50 ∧
    trackedPolarAngleAt 10 50 75 = 110 := by
  have hp : cycleProgress 10 50 75 = 1 / 2 := by
    norm_num [cycleProgress, elapsedTime, jsRem, rtrunc]
  have h0 : trackedPolarAngle 0 = 50 := by
    norm_num [trackedPolarAngle]
  have hhalf : trackedPolarAngle (1 / 2) = 110 := by
    norm_num [trackedPolarAngle, Real.cos_pi]
  have h1 : trackedPolarAngle 1 = 50 := by
    norm_num [trackedPolarAngle, Real.cos_two_pi]
  refine ⟨hp, h0, hhalf, h1, ?_⟩
  rw [trackedPolarAngleAt, hp]
  push_cast
  exact hhalf

/-! ## C5 — time scaling and periodicity of the tracking formulas. -/

/-- A composer with a sun, after `enableSunTracking(1, 10)`: the
configured tracking speed is 1 and the cycle duration 10. -/
def trackingConfiguredState : CState :=
  enableSunTracking 1 10 { exampleState with hasSun := true }

/-- Counterexample to C5 as stated: with tracking configured at speed 1
and cycle duration 10 (as `enableSunTracking` stores them), advancing the
time input by one full cycle duration scaled by that speed (10 seconds)
does not return the stored azimuth to its starting value: the tracking
formulas scale elapsed time by the hard-coded 0.2, not by the configured
speed, so ten seconds advance the cycle by only a fifth. -/
theorem speed_scaled_cycle_is_not_a_period :
    trackingConfiguredState.sunTrackingSpeed = 1 ∧
    trackingConfiguredState.sunCycleDuration = 10 ∧
    storedAzimuthalAngle 10 50 50 = 90 ∧
    storedAzimuthalAngle 10 50 (50 + 10 / 1) = 162 ∧
    storedAzimuthalAngle 10 50 (50 + 10 / 1) ≠ storedAzimuthalAngle 10 50 50 := by
  refine ⟨rfl, rfl, ?_, ?_, ?_⟩ <;>
    norm_num [storedAzimuthalAngle, trackedAzimuthalAngle, cycleProgress, elapsedTime,
      jsRem, rtrunc]

/-- The JavaScript remainder is invariant under adding the (positive)
modulus to a nonnegative dividend. -/
theorem jsRem_add_self (x y : ℚ) (hx : 0 ≤ x) (hy : 0 < y) :
    jsRem (x + y) y = jsRem x y := by
  unfold jsRem rtrunc
  have hxy : 0 ≤ x / y := div_nonneg hx hy.le
  have hxy' : 0 ≤ (x + y) / y := div_nonneg (by linarith) hy.le
  rw [if_pos hxy', if_pos hxy]
  have hdiv : (x + y) / y = x / y + 1 := by
    field_simp
  rw [hdiv, Int.floor_add_one]
  push_cast
  ring

/-- C5 (amended): the tracking formulas scale elapsed time by the fixed
constant 0.2 — `sunTrackingSpeed` is not consulted — so the period of
the tracked azimuth (after its `% 360` wrap) and of the tracked polar
angle in the time input is `cycleDuration / 0.2 = 5 * cycleDuration`:
for any positive cycle duration and any time at or after the effective
start time 50, advancing the time input by five cycle durations adds
exactly one cycle duration to the scaled elapsed time and returns both
stored angles to their starting values. -/
theorem tracking_period_five_cycles (D t : ℚ) (hD : 0 < D) (ht : 50 ≤ t) :
    elapsedTime 50 (t + 5 * D) = elapsedTime 50 t + D ∧
    cycleProgress D 50 (t + 5 * D) = cycleProgress D 50 t ∧
    storedAzimuthalAngle D 50 (t + 5 * D) = storedAzimuthalAngle D 50 t ∧
    trackedPolarAngleAt D 50 (t + 5 * D) = trackedPolarAngleAt D 50 t := by
  have he : elapsedTime 50 (t + 5 * D) = elapsedTime 50 t + D := by
    unfold elapsedTime
    have h02 : (0.2 : ℚ) = 1 / 5 := by norm_num
    rw [h02]
    ring
  have he0 : 0 ≤ elapsedTime 50 t := by
    unfold elapsedTime
    have h02 : (0 : ℚ) < 0.2 := by norm_num
    nlinarith
  have hp : cycleProgress D 50 (t + 5 * D) = cycleProgress D 50 t := by
    unfold cycleProgress
    rw [he, jsRem_add_self _ _ he0 hD]
  refine ⟨he, hp, ?_, ?_⟩
  · unfold storedAzimuthalAngle trackedAzimuthalAngle
    rw [hp]
  · unfold trackedPolarAngleAt
    rw [hp]

/-- Witness for C5 (amended), at cycle duration 10 starting at time 50:
advancing by 50 seconds is a period. -/
theorem tracking_period_five_cycles_witness :
    elapsedTime 50 (50 + 5 * 10) = elapsedTime 50 50 + 10 ∧
    cycleProgress 10 50 (50 + 5 * 10) = cycleProgress 10 50 50 ∧
    storedAzimuthalAngle 10 50 (50 + 5 * 10) = storedAzimuthalAngle 10 50 50 ∧
    trackedPolarAngleAt 10 50 (50 + 5 * 10) = trackedPolarAngleAt 10 50 50 :=
  tracking_period_five_cycles 10 50 (by norm_num) (by norm_num)

/-! ## C6 — the sun-intensity fade around the horizon. -/

/-- The cosine fade factor `(cos x + 1) / 2` is nonnegative. -/
theorem fadeFactor_nonneg (x : ℝ) : 0 ≤ (Real.cos x + 1) / 2 := by
  have := Real.neg_one_le_cos x
  linarith

/-- The cosine fade factor `(cos x + 1) / 2` is at most one. -/
theorem fadeFactor_le_one (x : ℝ) : (Real.cos x + 1) / 2 ≤ 1 := by
  have := Real.cos_le_one x
  linarith

/-- C6: the tracked sun intensity equals the configured base intensity
whenever the polar angle is at (or above, i.e. the sun higher in the
sky) the 75° fade-start threshold, equals zero whenever it is at (or
below, sun-wise) the 95° fade-end threshold, and for a nonnegative base
intensity it is monotonically non-increasing in the polar angle across
the whole range between the two thresholds. -/
theorem sun_intensity_fade (base : ℝ) :
    (∀ p : ℝ, p ≤ 75 → computeSunIntensity base p = base) ∧
    (∀ p : ℝ, 95 ≤ p → computeSunIntensity base p = 0) ∧
    computeSunIntensity base 75 = base ∧
    computeSunIntensity base 95 = 0 ∧
    (0 ≤ base → ∀ p q : ℝ, 75 ≤ p → p ≤ q → q ≤ 95 →
      computeSunIntensity base q ≤ computeSunIntensity base p) := by
  have hhi : ∀ p : ℝ, p ≤ 75 → computeSunIntensity base p = base := by
    intro p hp
    simp [computeSunIntensity, hp]
  have hlo : ∀ p : ℝ, 95 ≤ p → computeSunIntensity base p = 0 := by
    intro p hp
    have h1 : ¬(p ≤ 75) := by linarith
    simp [computeSunIntensity, h1, hp]
  have hzone : ∀ p : ℝ, ¬(p ≤ 75) → ¬(95 ≤ p) →
      computeSunIntensity base p =
        base * ((Real.cos ((p - 75) / (95 - 75) * Real.pi) + 1) / 2) := by
    intro p h1 h2
    simp [computeSunIntensity, h1, h2]
  refine ⟨hhi, hlo, hhi 75 le_rfl, hlo 95 le_rfl, ?_⟩
  intro hbase p q hp hpq hq
  by_cases hq1 : q ≤ 75
  · rw [hhi q hq1, hhi p (le_trans hpq hq1)]
  · by_cases hp1 : p ≤ 75
    · rw [hhi p hp1]
      by_cases hq2 : 95 ≤ q
      · rw [hlo q hq2]; exact hbase
      · rw [hzone q hq1 hq2]
        calc base * ((Real.cos ((q - 75) / (95 - 75) * Real.pi) + 1) / 2)
            ≤ base * 1 := by
              exact mul_le_mul_of_nonneg_left (fadeFactor_le_one _) hbase
          _ = base := mul_one base
    · by_cases hp2 : 95 ≤ p
      · rw [hlo p hp2, hlo q (le_trans hp2 hpq)]
      · by_cases hq2 : 95 ≤ q
        · rw [hlo q hq2, hzone p hp1 hp2]
          exact mul_nonneg hbase (fadeFactor_nonneg _)
        · rw [hzone p hp1 hp2, hzone q hq1 hq2]
          have hθp0 : 0 ≤ (p - 75) / (95 - 75) * Real.pi := by
            apply mul_nonneg _ Real.pi_pos.le
            have : (0 : ℝ) ≤ p - 75 := by linarith
            positivity
          have hθqπ : (q - 75) / (95 - 75) * Real.pi ≤ Real.pi := by
            have h1 : (q - 75) / (95 - 75) ≤ 1 := by
              rw [div_le_one (by norm_num : (0 : ℝ) < 95 - 75)]
              linarith
            calc (q - 75) / (95 - 75) * Real.pi ≤ 1 * Real.pi :=
                  mul_le_mul_of_nonneg_right h1 Real.pi_pos.le
              _ = Real.pi := one_mul _
          have hθpq : (p - 75) / (95 - 75) * Real.pi ≤ (q - 75) / (95 - 75) * Real.pi := by
            have h20 : (0 : ℝ) < 95 - 75 := by norm_num
            apply mul_le_mul_of_nonneg_right _ Real.pi_pos.le
            gcongr
          have hcos :
              Real.cos ((q - 75) / (95 - 75) * Real.pi) ≤
                Real.cos ((p - 75) / (95 - 75) * Real.pi) :=
            Real.cos_le_cos_of_nonneg_of_le_pi hθp0 hθqπ hθpq
          apply mul_le_mul_of_nonneg_left _ hbase
          linarith

/-- Witness for C6: base intensity 7.2 (the default `sunIntensity`),
evaluated at the thresholds and at two points of the fade zone. -/
theorem sun_intensity_fade_witness :
    computeSunIntensity 7.2 60 = 7.2 ∧
    computeSunIntensity 7.2 75 = 7.2 ∧
    computeSunIntensity 7.2 95 = 0 ∧
    computeSunIntensity 7.2 100 = 0 ∧
    computeSunIntensity 7.2 90 ≤ computeSunIntensity 7.2 80 :=
  ⟨(sun_intensity_fade 7.2).1 60 (by norm_num),
   (sun_intensity_fade 7.2).2.2.1,
   (sun_intensity_fade 7.2).2.2.2.1,
   (sun_intensity_fade 7.2).2.1 100 (by norm_num),
   (sun_intensity_fade 7.2).2.2.2.2 (by norm_num) 80 90 (by norm_num) (by norm_num)
     (by norm_num)⟩

/-! ## C8 — visibility capture and restore in `generateEnvironmentMap`. -/

/-- Restoring the captured visibility over the hidden children recovers
the original children exactly. -/
theorem restore_after_hide (children : List SceneChild) :
    restoreVisibility (hideNonSky children) (captureVisibility children) = children := by
  induction children with
  | nil => rfl
  | cons c cs ih =>
    obtain ⟨sky, vis⟩ := c
    cases sky <;>
      simp [restoreVisibility, hideNonSky, captureVisibility] at ih ⊢ <;>
      exact ih

/-- Counterexample to C8 as stated: when the cube-camera render throws,
the restore loop never runs (there is no try/finally in the source), so
a previously visible non-sky child is left hidden — visibility before
and after the call is not identical in the failure case. -/
theorem failed_render_leaves_children_hidden :
    (generateEnvironmentMap [⟨false, true⟩, ⟨true, true⟩] false).1 =
      [⟨false, false⟩, ⟨true, true⟩] ∧
    (generateEnvironmentMap [⟨false, true⟩, ⟨true, true⟩] false).1 ≠
      [⟨false, true⟩, ⟨true, true⟩] := by
  decide

/-- C8 (amended): when the cube-camera render succeeds, every scene
child's visibility is captured before hiding and restored to its
captured value, so the children after the call are exactly the children
before it; but when the render throws, the exception propagates before
the restore loop and every non-sky child is left hidden. -/
theorem generate_restores_visibility_on_success (children : List SceneChild) :
    (generateEnvironmentMap children true).1 = children ∧
    (∀ c ∈ (generateEnvironmentMap children false).1,
      c.isSky = false → c.visible = false) := by
  constructor
  · simpa [generateEnvironmentMap] using restore_after_hide children
  · intro c hc hsky
    simp [generateEnvironmentMap, hideNonSky] at hc
    obtain ⟨a, _, rfl⟩ := hc
    by_cases h : a.isSky
    · simp [h] at hsky
    · simp [h]

/-- Witness for C8 (amended), on a two-child scene. -/
theorem generate_restores_visibility_on_success_witness :
    (generateEnvironmentMap [⟨false, true⟩, ⟨true, true⟩] true).1 =
      [⟨false, true⟩, ⟨true, true⟩] ∧
    (⟨false, false⟩ : SceneChild).visible = false :=
  ⟨(generate_restores_visibility_on_success [⟨false, true⟩, ⟨true, true⟩]).1,
   (generate_restores_visibility_on_success [⟨false, true⟩, ⟨true, true⟩]).2
     ⟨false, false⟩ (by decide) rfl⟩

/-! ## C9 — out-of-range configuration scalars are applied raw. -/

/-- An `EnvironmentConfiguration` whose atmospheric skybox descriptor
carries turbidity `t` and rayleigh `r`. -/
def atmosphericConfig (t r : ℚ) : EnvironmentConfig :=
  { emptyConfig with
    skybox := some
      { intensity := none
        blurriness := none
        azimuthalAngle := none
        polarAngle := none
        variant := .atmospheric (some
          { turbidity := some t
            rayleigh := some r
            mieCoefficient := none
            mieDirectionalG := none
            sunPosition := none }) } }

/-- Counterexample to C9 as stated: a configuration update carrying the
out-of-range turbidity −1 ends with the sky shader's turbidity uniform
at −1 itself — the negative value is applied raw, not clamped to any
valid (positive) turbidity. -/
theorem negative_turbidity_applied_raw :
    (updateEnvironmentConfiguration (atmosphericConfig (-1) 4) exampleState).skyUniforms.turbidity
      = -1 ∧
    ((-1 : ℚ) < 0) := by
  constructor
  · rfl
  · norm_num

/-- C9 (amended): configured atmospheric scalars are copied into the sky
uniforms and `envValues` exactly as supplied — out-of-range values
included, with no clamping or validation — and the other fields of the
same update are applied all the same. -/
theorem atmospheric_update_applies_raw_values (s : CState) (t r : ℚ)
    (hhassky : s.hasSky = true) :
    (updateEnvironmentConfiguration (atmosphericConfig t r) s).skyUniforms.turbidity = t ∧
    (updateEnvironmentConfiguration (atmosphericConfig t r) s).skyUniforms.rayleigh = r ∧
    (updateEnvironmentConfiguration (atmosphericConfig t r) s).envValues.turbidity = t ∧
    (updateEnvironmentConfiguration (atmosphericConfig t r) s).envValues.rayleigh = r := by
  have hstep : updateEnvironmentConfiguration (atmosphericConfig t r) s =
      updateFogValues (updateSunValues (updateBloomValues (updateAmbientLightValues
        (updateSkyboxAndEnvValues
          (updateAtmosphericSky { s with config := some (atmosphericConfig t r) }))))) := by
    simp only [updateEnvironmentConfiguration, atmosphericConfig, emptyConfig]
  rw [hstep]
  by_cases hsun' : s.hasSun = true <;>
  by_cases hfog' : s.envValues.fogFar = 0 <;>
    simp [updateAtmosphericSky, updateSkyboxAndEnvValues, updateAmbientLightValues,
      updateBloomValues, updateSunValues, updateFogValues, setFog, setAmbientLight,
      atmosphericConfig, emptyConfig, hhassky, hsun', hfog']

/-- Witness for C9 (amended): the out-of-range turbidity −1 together
with the in-range rayleigh 4 on a freshly constructed composer. -/
theorem atmospheric_update_applies_raw_values_witness :
    (updateEnvironmentConfiguration (atmosphericConfig (-1) 4) exampleState).skyUniforms.turbidity
      = -1 ∧
    (updateEnvironmentConfiguration (atmosphericConfig (-1) 4) exampleState).skyUniforms.rayleigh
      = 4 ∧
    (updateEnvironmentConfiguration (atmosphericConfig (-1) 4) exampleState).envValues.turbidity
      = -1 ∧
    (updateEnvironmentConfiguration (atmosphericConfig (-1) 4) exampleState).envValues.rayleigh
      = 4 :=
  atmospheric_update_applies_raw_values exampleState (-1) 4 rfl

/-! ## C10 — behaviour before the fixed start time 50. -/

/-- The JavaScript remainder of a negative dividend by a positive
modulus is nonpositive. -/
theorem jsRem_nonpos (x y : ℚ) (hx : x < 0) (hy : 0 < y) : jsRem x y ≤ 0 := by
  unfold jsRem rtrunc
  have h1 : x / y < 0 := div_neg_of_neg_of_pos hx hy
  rw [if_neg (not_le.mpr h1)]
  have h2 : (x / y : ℚ) ≤ (⌈x / y⌉ : ℚ) := Int.le_ceil _
  have h3 : y * (x / y) ≤ y * (⌈x / y⌉ : ℚ) := mul_le_mul_of_nonneg_left h2 hy.le
  have h4 : y * (x / y) = x := by
    field_simp
  linarith

/-- Counterexample to C10 as stated: at time input 0 (before the start
time 50) with cycle duration 10 the scaled elapsed time is −10, an exact
multiple of the cycle duration, so the JavaScript remainder is 0 and the
cycle progress is 0 — not negative. -/
theorem progress_not_negative_at_exact_multiple :
    (0 : ℚ) < 50 ∧
    elapsedTime 50 0 = -10 ∧
    cycleProgress 10 50 0 = 0 ∧
    ¬(cycleProgress 10 50 0 < 0) := by
  have hc : ⌈(-1 : ℚ)⌉ = (-1 : ℤ) := by
    exact_mod_cast Int.ceil_intCast (α := ℚ) (-1)
  refine ⟨by norm_num, ?_, ?_, ?_⟩ <;>
    norm_num [cycleProgress, elapsedTime, jsRem, rtrunc, hc]

/-- C10 (amended): the first tracking advance sets the start time to the
constant 50 (not to the current time input); for every time input
before 50 the scaled elapsed time is negative and the cycle progress is
nonpositive (zero exactly when the elapsed time is a multiple of the
cycle duration, negative otherwise); consequently the computed azimuth
can fall below the 90° east offset and the value stored after the
`% 360` wrap can be negative, as at time 25 with cycle duration 10. -/
theorem tracking_before_start_time (D t : ℚ) (hD : 0 < D) (ht : t < 50) :
    nextStartTime 0 = 50 ∧
    elapsedTime 50 t < 0 ∧
    cycleProgress D 50 t ≤ 0 ∧
    trackedAzimuthalAngle 10 50 25 = -90 ∧
    storedAzimuthalAngle 10 50 25 = -90 := by
  have helapsed : elapsedTime 50 t < 0 := by
    unfold elapsedTime
    have h02 : (0 : ℚ) < 0.2 := by norm_num
    nlinarith
  refine ⟨rfl, helapsed, ?_, ?_, ?_⟩
  · unfold cycleProgress
    exact div_nonpos_of_nonpos_of_nonneg (jsRem_nonpos _ _ helapsed hD) hD.le
  · have hc2 : ⌈(-(1 / 2) : ℚ)⌉ = 0 := by
      rw [Int.ceil_eq_zero_iff]
      constructor <;> norm_num
    norm_num [trackedAzimuthalAngle, cycleProgress, elapsedTime, jsRem, rtrunc, hc2]
  · have hc2 : ⌈(-(1 / 2) : ℚ)⌉ = 0 := by
      rw [Int.ceil_eq_zero_iff]
      constructor <;> norm_num
    have hc4 : ⌈(-(1 / 4) : ℚ)⌉ = 0 := by
      rw [Int.ceil_eq_zero_iff]
      constructor <;> norm_num
    norm_num [storedAzimuthalAngle, trackedAzimuthalAngle, cycleProgress, elapsedTime,
      jsRem, rtrunc, hc2, hc4]

/-- Witness for C10 (amended), at cycle duration 10 and time input 0. -/
theorem tracking_before_start_time_witness :
    nextStartTime 0 = 50 ∧
    elapsedTime 50 0 < 0 ∧
    cycleProgress 10 50 0 ≤ 0 ∧
    trackedAzimuthalAngle 10 50 25 = -90 ∧
    storedAzimuthalAngle 10 50 25 = -90 :=
  tracking_before_start_time 10 0 (by norm_num) (by norm_num)

end ThreeDWeb
